import Mathlib

/-!
# Verification of the TSLA dashboard data pipeline (`src/app.py`)

Shallow embedding of the pure core of `app.py`:

* a CSV is modelled as a header list plus rows of cells, where a cell is
  `Option String` (`none` models a missing field, which pandas reads as NaN);
* the library parsers used by the script (`pd.to_numeric` on a single value,
  `pd.to_datetime` on a single value, `ast.literal_eval`) are parameters of the
  embedding (`pn`, `pdp`, `lev`); concrete executable instances (`qParse`,
  `dParse`, `levDemo`) are supplied for evaluation at concrete inputs;
* exceptions are modelled by totality: every fallible library step is an
  `Option`, and `load_data` returns a pair of an optional displayed error
  message (`st.error`) and the resulting table, so "never raises" is
  "is a total function into this pair".
-/

/-- A CSV cell: `none` is a missing field (pandas NaN), `some s` the raw text. -/
abbrev Cell := Option String

/-- A CSV file as read by `pd.read_csv`: headers plus rows of cells. -/
structure Csv where
  headers : List String
  rows : List (List Cell)
deriving DecidableEq

/-- Values of Python literals, the codomain of `ast.literal_eval`
(restricted to the literal forms relevant to this program). -/
inductive Lit where
  | int (n : Int)
  | float (q : ℚ)
  | str (s : String)
  | list (xs : List Lit)
  | tuple (xs : List Lit)
  | bool (b : Bool)
  | pynone

/-- Python truthiness of a `Lit` value (`if row['support_list']:`). -/
def Lit.truthy : Lit → Bool
  | .int n => n ≠ 0
  | .float q => q ≠ 0
  | .str s => s ≠ ""
  | .list xs => !xs.isEmpty
  | .tuple xs => !xs.isEmpty
  | .bool b => b
  | .pynone => false

/-- Dates with pandas `NaT` (the result of `pd.to_datetime` on a missing
cell).  `sort_values` places `NaT` last, so the model's order puts `NaT`
above every determinate date. -/
inductive PDate where
  | dt (t : Int)
  | NaT
deriving DecidableEq

/-- The ascending-with-NaT-last order used by `sort_values('date')`. -/
def pdLe : PDate → PDate → Bool
  | .dt a, .dt b => a ≤ b
  | _, .NaT => true
  | .NaT, .dt _ => false

/-- A processed row of the loaded table: the columns of the dataframe that
`load_data` returns and that `candlestick_chart` and `main` read. -/
structure Row where
  date : PDate
  open_ : Option ℚ
  high : Option ℚ
  low : Option ℚ
  close : Option ℚ
  support_list : Lit
  resistance_list : Lit
  direction : String

/-! Kernel-computable models of the Python string primitives the script
uses (`str.strip`, `str.lower`, `str.upper`, digit parsing, splitting),
written over `List Char` so that concrete inputs evaluate by `rfl`. -/

/-- Whitespace as stripped by Python's `str.strip`. -/
def isWs (c : Char) : Bool := c = ' ' || c = '\t' || c = '\n' || c = '\r'

/-- ASCII lowercasing of one character (`str.lower`). -/
def lowerChar (c : Char) : Char :=
  if 'A' ≤ c && c ≤ 'Z' then Char.ofNat (c.toNat + 32) else c

/-- ASCII uppercasing of one character (`str.upper`). -/
def upperChar (c : Char) : Char :=
  if 'a' ≤ c && c ≤ 'z' then Char.ofNat (c.toNat - 32) else c

/-- Python `str.strip()`: remove leading and trailing whitespace. -/
def pyStrip (s : String) : String :=
  String.mk (((s.data.dropWhile isWs).reverse.dropWhile isWs).reverse)

/-- Python `str.lower()`. -/
def pyLower (s : String) : String := String.mk (s.data.map lowerChar)

/-- Python `str.upper()`. -/
def pyUpper (s : String) : String := String.mk (s.data.map upperChar)

/-- Parse a non-empty all-digit character list as a natural number. -/
def digitsToNat? : List Char → Option Nat
  | [] => none
  | cs =>
    if cs.all (fun c => '0' ≤ c && c ≤ '9') then
      some (cs.foldl (fun acc c => acc * 10 + (c.toNat - 48)) 0)
    else none

/-- Split a character list on a separator character (Python `str.split`). -/
def splitOnChar (sep : Char) (cs : List Char) : List (List Char) :=
  match cs with
  | [] => [[]]
  | c :: rest =>
    let r := splitOnChar sep rest
    if c = sep then [] :: r
    else
      match r with
      | g :: gs => (c :: g) :: gs
      | [] => [[c]]

/-- `df.columns.str.strip().str.lower()` applied to one column name. -/
def normCol (s : String) : String := pyLower (pyStrip s)

/-- `df[name]` for one row: find the column index by (already normalized)
header name and return that cell; a row shorter than the header reads as
missing (pandas fills NaN). -/
def getCell (hdrs : List String) (cells : List Cell) (name : String) : Cell :=
  match hdrs.findIdx? (· = name) with
  | some i => (cells.get? i).join
  | none => none

/-- The per-row list parser `parse_list` of `load_data`, relative to a model
`lev` of `ast.literal_eval` (`lev s = none` models a raising parse):
`ast.literal_eval(x) if isinstance(x, str) else []`, with a bare `except`
returning `[]`.  Total by construction, modelling that it never raises. -/
def parse_list (lev : String → Option Lit) : Cell → Lit
  | some s =>
    match lev s with
    | some v => v
    | none => Lit.list []
  | none => Lit.list []

/-- `pd.to_numeric(·, errors='coerce')` on one cell: a missing cell stays
missing and an unparseable string is coerced to NaN (`none`). -/
def toNumeric (pn : String → Option ℚ) (c : Cell) : Option ℚ :=
  c.bind pn

/-- `str(x).upper()` after `fillna('None')` on one direction cell. -/
def directionOf (c : Cell) : String :=
  pyUpper (c.getD "None")

/-- `pd.to_datetime` on one timestamp cell, after the whole-column call has
been checked not to raise: a missing cell becomes `NaT`; the unparseable
case (also mapped to `NaT` here) is unreachable on the non-raising path. -/
def toDatetime (pdp : String → Option Int) (c : Cell) : PDate :=
  match c with
  | none => PDate.NaT
  | some s =>
    match pdp s with
    | some t => PDate.dt t
    | none => PDate.NaT

/-- Whether `pd.to_datetime` does not raise on this row's timestamp cell:
missing cells give `NaT` without raising, present cells must parse. -/
def tsOk (pdp : String → Option Int) (hdrs : List String) (cells : List Cell) : Bool :=
  match getCell hdrs cells "timestamp" with
  | none => true
  | some s => (pdp s).isSome

/-- The per-row transformation performed by `load_data` on a raw CSV row:
date from `timestamp`, numeric coercion of the four price fields,
`parse_list` on `support`/`resistance`, fill-then-uppercase on `direction`. -/
def processRow (pn : String → Option ℚ) (pdp : String → Option Int)
    (lev : String → Option Lit) (hdrs : List String) (cells : List Cell) : Row where
  date := toDatetime pdp (getCell hdrs cells "timestamp")
  open_ := toNumeric pn (getCell hdrs cells "open")
  high := toNumeric pn (getCell hdrs cells "high")
  low := toNumeric pn (getCell hdrs cells "low")
  close := toNumeric pn (getCell hdrs cells "close")
  support_list := parse_list lev (getCell hdrs cells "support")
  resistance_list := parse_list lev (getCell hdrs cells "resistance")
  direction := directionOf (getCell hdrs cells "direction")

/-- `dropna(subset=['open','high','low','close'])` keeps a row iff all four
coerced price fields are non-missing. -/
def ohlcAll (r : Row) : Bool :=
  r.open_.isSome && r.high.isSome && r.low.isSome && r.close.isSome

/-- The sort relation of `sort_values('date')`, on processed rows. -/
def rowLe (a b : Row) : Prop := pdLe a.date b.date = true

instance : DecidableRel rowLe := fun a b => by
  unfold rowLe; infer_instance

/-- The columns `load_data` accesses besides `timestamp`; a missing one
raises `KeyError` inside the `try`, landing in the generic error branch. -/
def requiredCols : List String :=
  ["open", "high", "low", "close", "support", "resistance", "direction"]

/-- Whether the body of `load_data` runs to the `return` without raising:
every accessed column exists and `pd.to_datetime` accepts every timestamp. -/
def loadOk (pdp : String → Option Int) (hdrs : List String)
    (rows : List (List Cell)) : Bool :=
  requiredCols.all (hdrs.contains ·) && rows.all (tsOk pdp hdrs)

/-- The successful pipeline of `load_data` after header normalization:
process each row, `dropna` on the price fields, sort ascending by date. -/
def processedTable (pn : String → Option ℚ) (pdp : String → Option Int)
    (lev : String → Option Lit) (hdrs : List String)
    (rows : List (List Cell)) : List Row :=
  List.insertionSort rowLe ((rows.map (processRow pn pdp lev hdrs)).filter ohlcAll)

/-- The body of `load_data` on a successfully read CSV, after
`df.columns = df.columns.str.strip().str.lower()`: everything downstream
depends only on the normalized headers and the rows. -/
def loadCore (pn : String → Option ℚ) (pdp : String → Option Int)
    (lev : String → Option Lit) (hdrs : List String)
    (rows : List (List Cell)) : Option String × List Row :=
  if "timestamp" ∈ hdrs then
    if loadOk pdp hdrs rows then
      (none, processedTable pn pdp lev hdrs rows)
    else
      (some "❌ Failed to load data: exception while processing", [])
  else
    (some "❌ No 'timestamp' column found.", [])

/-- `load_data`: the input is `none` when `pd.read_csv` itself raises
(unreadable file).  Every branch returns, pairing an optional displayed
error message (`st.error`) with the table; the error branches return the
empty dataframe.  Total by construction: no exception propagates. -/
def load_data (pn : String → Option ℚ) (pdp : String → Option Int)
    (lev : String → Option Lit) : Option Csv → Option String × List Row
  | none => (some "❌ Failed to load data: exception while reading", [])
  | some csv => loadCore pn pdp lev (csv.headers.map normCol) csv.rows

/-! ### Concrete parser instances for evaluation at concrete inputs -/

/-- Concrete instance of the numeric parser: optional sign, decimal digits,
optional fractional part (a subset of what `pd.to_numeric` accepts). -/
def qParse (s : String) : Option ℚ :=
  let core := fun (body : List Char) (sgn : ℚ) =>
    match splitOnChar '.' body with
    | [w] => (digitsToNat? w).map (fun n => sgn * (n : ℚ))
    | [w, f] =>
      match digitsToNat? w, digitsToNat? f with
      | some wn, some fn => some (sgn * ((wn : ℚ) + (fn : ℚ) / ((10 : ℚ) ^ f.length)))
      | _, _ => none
    | _ => none
  match s.data with
  | '-' :: rest => core rest (-1)
  | cs => core cs 1

/-- Concrete instance of the timestamp parser: ISO `YYYY-MM-DD` dates,
encoded as the order-preserving integer `y*10000 + m*100 + d` (a subset of
what `pd.to_datetime` accepts). -/
def dParse (s : String) : Option Int :=
  match splitOnChar '-' s.data with
  | [y, m, d] =>
    match digitsToNat? y, digitsToNat? m, digitsToNat? d with
    | some yn, some mn, some dn =>
      if 1 ≤ mn && mn ≤ 12 && 1 ≤ dn && dn ≤ 31 then
        some ((yn : Int) * 10000 + (mn : Int) * 100 + (dn : Int))
      else none
    | _, _, _ => none
  | _ => none

/-- Concrete instance of `ast.literal_eval` used in witnesses: a finite
table of literals, `none` modelling a raising parse. -/
def levDemo (s : String) : Option Lit :=
  if s = "[10, 20]" then some (Lit.list [Lit.int 10, Lit.int 20])
  else if s = "[221.5]" then some (Lit.list [Lit.float (443 / 2)])
  else if s = "5" then some (Lit.int 5)
  else none

/-! ### The chart builder `candlestick_chart` -/

/-- The `go.Candlestick` trace: the date/open/high/low/close series passed
to the figure constructor. -/
structure CandleTrace where
  x : List PDate
  open_ : List (Option ℚ)
  high : List (Option ℚ)
  low : List (Option ℚ)
  close : List (Option ℚ)

/-- One `fig.add_shape` rectangle: anchored at the row's date, spanning the
band value whose min/max give `y0`/`y1`; `isSupport` distinguishes the
green support band from the red resistance band. -/
structure Shape where
  x : PDate
  band : Lit
  isSupport : Bool

/-- One `go.Scatter` marker trace added for a direction value. -/
structure MarkerTrace where
  name : String
  symbol : String
  color : String
  xs : List PDate
  ys : List (Option ℚ)

/-- The figure assembled by `candlestick_chart`. -/
structure Fig where
  candle : CandleTrace
  shapes : List Shape
  markers : List MarkerTrace
  title : String

/-- `df.tail(n)`: the last `n` rows (all rows when there are fewer). -/
def lastN (n : Nat) (l : List α) : List α := l.drop (l.length - n)

/-- The shapes contributed by one trimmed row: a support band when
`row['support_list']` is truthy, a resistance band when
`row['resistance_list']` is truthy. -/
def rowShapes (r : Row) : List Shape :=
  (if (r.support_list).truthy then [⟨r.date, r.support_list, true⟩] else [])
    ++ (if (r.resistance_list).truthy then [⟨r.date, r.resistance_list, false⟩] else [])

/-- The `signals` lookup table mapping a direction to its marker symbol. -/
def signals : List (String × String) :=
  [("LONG", "triangle-up"), ("SHORT", "triangle-down"), ("NONE", "circle")]

/-- The marker y-coordinate for one row: `low*0.98` for LONG, `high*1.02`
for SHORT, `(high+low)/2` otherwise (NaN propagates as `none`). -/
def markerY (direction : String) (r : Row) : Option ℚ :=
  if direction = "LONG" then r.low.map (· * (98 / 100))
  else if direction = "SHORT" then r.high.map (· * (102 / 100))
  else
    match r.high, r.low with
    | some h, some l => some ((h + l) / 2)
    | _, _ => none

/-- The marker color per direction. -/
def markerColor (direction : String) : String :=
  if direction = "LONG" then "green"
  else if direction = "SHORT" then "red"
  else "yellow"

/-- The `go.Scatter` trace for one `(direction, symbol)` entry of `signals`:
the subset of the trimmed rows with that direction, skipped when empty. -/
def markerTrace (trimmed : List Row) (direction symbol : String) : Option MarkerTrace :=
  let subset := trimmed.filter (fun r => r.direction = direction)
  if subset.isEmpty then none
  else
    some
      { name := direction
        symbol := symbol
        color := markerColor direction
        xs := subset.map (·.date)
        ys := subset.map (markerY direction) }

/-- `candlestick_chart(df, max_rows=100)`: the candlestick trace is built
from the full columns of `df`; the band shapes and the marker traces are
built from `trimmed_df = df.tail(max_rows)` only. -/
def candlestick_chart (df : List Row) (max_rows : Nat := 100) : Fig :=
  let trimmed := lastN max_rows df
  { candle :=
      { x := df.map (·.date)
        open_ := df.map (·.open_)
        high := df.map (·.high)
        low := df.map (·.low)
        close := df.map (·.close) }
    shapes := trimmed.flatMap rowShapes
    markers := signals.filterMap (fun p => markerTrace trimmed p.1 p.2)
    title := "TSLA Chart (Last 100 Rows)" }

/-! ### The AI ask path `ask_ai` -/

/-- The fixed string returned when `init_gemini` came back `None`. -/
def unavailableMsg : String := "❌ Gemini model unavailable. Check your API key."

/-- `f"❌ Gemini AI error: {e}"`. -/
def aiErrorMsg (e : String) : String := "❌ Gemini AI error: " ++ e

/-- The f-string prompt of `ask_ai`, templating the summary and question. -/
def promptOf (question summary : String) : String :=
  "\n        You are an expert stock analyst. Use the TSLA summary below to answer the question briefly and clearly:\n\n        Summary:\n        "
    ++ summary ++ "\n\n        Question:\n        " ++ question ++ "\n        "

/-- `ask_ai(question, summary)`, relative to the cached `init_gemini`
result (`none` models `init_gemini` returning `None` after a failed
initialization) and a model `gen` of `model.generate_content`, whose
`Except.error e` models a raised exception with message `e`.  Total by
construction: every branch returns a string. -/
def ask_ai {M : Type} (model : Option M)
    (gen : M → String → Except String String)
    (question summary : String) : String :=
  match model with
  | none => unavailableMsg
  | some m =>
    match gen m (promptOf question summary) with
    | .ok t => t
    | .error e => aiErrorMsg e

/-! ### Shared lemmas -/

theorem pdLe_total (a b : PDate) : pdLe a b = true ∨ pdLe b a = true := by
  cases a <;> cases b <;> simp [pdLe]
  omega

theorem pdLe_trans (a b c : PDate) (h1 : pdLe a b = true) (h2 : pdLe b c = true) :
    pdLe a c = true := by
  cases a <;> cases b <;> cases c <;> simp_all [pdLe]
  omega

instance : IsTotal Row rowLe := ⟨fun a b => pdLe_total a.date b.date⟩

instance : IsTrans Row rowLe := ⟨fun a b c => pdLe_trans a.date b.date c.date⟩

theorem mem_processedTable (pn : String → Option ℚ) (pdp : String → Option Int)
    (lev : String → Option Lit) (hdrs : List String) (rows : List (List Cell)) (r : Row) :
    r ∈ processedTable pn pdp lev hdrs rows ↔
      r ∈ (rows.map (processRow pn pdp lev hdrs)).filter ohlcAll :=
  List.mem_insertionSort rowLe

/-- Every row of `processedTable` is the image of some input row under
`processRow`, and passed the `dropna` filter. -/
theorem processedTable_mem_elim {pn : String → Option ℚ} {pdp : String → Option Int}
    {lev : String → Option Lit} {hdrs : List String} {rows : List (List Cell)} {r : Row}
    (h : r ∈ processedTable pn pdp lev hdrs rows) :
    ∃ raw ∈ rows, r = processRow pn pdp lev hdrs raw ∧ ohlcAll r = true := by
  rw [mem_processedTable] at h
  obtain ⟨hmem, hf⟩ := List.mem_filter.mp h
  obtain ⟨raw, hraw, heq⟩ := List.mem_map.mp hmem
  exact ⟨raw, hraw, heq.symm, hf⟩

/-- Conversely, the image of an input row that passes the `dropna` filter
is in `processedTable`. -/
theorem processedTable_mem_intro {pn : String → Option ℚ} {pdp : String → Option Int}
    {lev : String → Option Lit} {hdrs : List String} {rows : List (List Cell)}
    {raw : List Cell} (hraw : raw ∈ rows)
    (hf : ohlcAll (processRow pn pdp lev hdrs raw) = true) :
    processRow pn pdp lev hdrs raw ∈ processedTable pn pdp lev hdrs rows := by
  rw [mem_processedTable]
  exact List.mem_filter.mpr ⟨List.mem_map_of_mem _ hraw, hf⟩

/-! ### C4: the list parser is total -/

/-- C4 (confirmed).  The per-row list parser never raises (it is a total
function of the cell): a string cell whose literal parse succeeds with a
list literal yields that parsed list, a string cell whose parse fails
(`lev s = none` models the raising `ast.literal_eval`) yields the empty
list, and a non-string cell (`none`, i.e. NaN) yields the empty list. -/
theorem c4_parse_list_total (lev : String → Option Lit) (s : String) (xs : List Lit) :
    (lev s = some (Lit.list xs) → parse_list lev (some s) = Lit.list xs) ∧
    (lev s = none → parse_list lev (some s) = Lit.list []) ∧
    parse_list lev none = Lit.list [] := by
  refine ⟨fun h => ?_, fun h => ?_, rfl⟩ <;> simp [parse_list, h]

/-- Witness for C4 at concrete inputs, with the concrete literal table
`levDemo` standing in for `ast.literal_eval`. -/
theorem c4_parse_list_total_witness :
    parse_list levDemo (some "[10, 20]") = Lit.list [Lit.int 10, Lit.int 20] ∧
    parse_list levDemo (some "not a literal") = Lit.list [] ∧
    parse_list levDemo none = Lit.list [] :=
  ⟨(c4_parse_list_total levDemo "[10, 20]" [Lit.int 10, Lit.int 20]).1 rfl,
   (c4_parse_list_total levDemo "not a literal" []).2.1 rfl,
   (c4_parse_list_total levDemo "" []).2.2⟩

/-! ### C7: `ask_ai` never raises -/

/-- C7 (confirmed).  `ask_ai` is a total function (never raises): when the
cached `init_gemini` handle is `None` it returns the fixed unavailability
string; when `model.generate_content` raises (modelled by `gen` returning
`Except.error e`) it returns the error string built from the exception
message `e` (which contains `e` by construction of `aiErrorMsg`); and when
the call succeeds it returns the response text. -/
theorem c7_ask_ai_total (M : Type) (gen : M → String → Except String String)
    (model : Option M) (q s : String) :
    (model = none → ask_ai model gen q s = unavailableMsg) ∧
    (∀ m e, model = some m → gen m (promptOf q s) = Except.error e →
      ask_ai model gen q s = aiErrorMsg e) ∧
    (∀ m t, model = some m → gen m (promptOf q s) = Except.ok t →
      ask_ai model gen q s = t) := by
  refine ⟨fun h => ?_, fun m e hm hg => ?_, fun m t hm hg => ?_⟩
  · subst h; rfl
  · subst hm; simp [ask_ai, hg]
  · subst hm; simp [ask_ai, hg]

/-- A `generate_content` stub that always succeeds. -/
def genOk : Unit → String → Except String String := fun _ _ => Except.ok "fine"

/-- A `generate_content` stub that always raises. -/
def genBoom : Unit → String → Except String String := fun _ _ => Except.error "boom"

/-- Witness for C7: all three branches at concrete inputs. -/
theorem c7_ask_ai_total_witness :
    ask_ai (none : Option Unit) genOk "q" "s" = unavailableMsg ∧
    ask_ai (some ()) genBoom "q" "s" = aiErrorMsg "boom" ∧
    ask_ai (some ()) genOk "q" "s" = "fine" :=
  ⟨(c7_ask_ai_total Unit genOk none "q" "s").1 rfl,
   (c7_ask_ai_total Unit genBoom (some ()) "q" "s").2.1 () "boom" rfl rfl,
   (c7_ask_ai_total Unit genOk (some ()) "q" "s").2.2 () "fine" rfl rfl⟩

/-! ### C3: the loaded table is sorted ascending by date -/

/-- C3 (confirmed).  For every input, any two consecutive rows of the table
returned by `load_data` are in ascending date order (`pdLe`, the order of
`sort_values('date')`, under which a `NaT` date sorts last). -/
theorem c3_table_sorted_by_date (pn : String → Option ℚ) (pdp : String → Option Int)
    (lev : String → Option Lit) (input : Option Csv) :
    List.Chain' (fun a b => pdLe a.date b.date = true) (load_data pn pdp lev input).2 := by
  cases input with
  | none => simp [load_data]
  | some csv =>
    show List.Chain' rowLe (loadCore pn pdp lev (csv.headers.map normCol) csv.rows).2
    unfold loadCore
    by_cases h1 : "timestamp" ∈ csv.headers.map normCol
    · by_cases h2 : loadOk pdp (csv.headers.map normCol) csv.rows = true
      · simpa [h1, h2] using (List.sorted_insertionSort rowLe
          ((csv.rows.map (processRow pn pdp lev (csv.headers.map normCol))).filter ohlcAll)).chain'
      · simp [h1, h2]
    · simp [h1]

/-! ### C8: `load_data` never propagates an exception -/

/-- C8 (confirmed).  `load_data` is a total function into (optional
displayed error message, table): for every input — including an unreadable
file (`none`) and any CSV — it either succeeds with no message and the
processed table, or carries a displayed error message and the empty table.
No failure mode escapes; totality of the definition models that no
exception propagates to the caller. -/
theorem c8_load_data_no_raise (pn : String → Option ℚ) (pdp : String → Option Int)
    (lev : String → Option Lit) (input : Option Csv) :
    (∃ csv, input = some csv ∧
      load_data pn pdp lev input =
        (none, processedTable pn pdp lev (csv.headers.map normCol) csv.rows)) ∨
    ((load_data pn pdp lev input).1.isSome = true ∧ (load_data pn pdp lev input).2 = []) := by
  cases input with
  | none => right; simp [load_data]
  | some csv =>
    by_cases h1 : "timestamp" ∈ csv.headers.map normCol
    · by_cases h2 : loadOk pdp (csv.headers.map normCol) csv.rows = true
      · exact Or.inl ⟨csv, rfl, by simp [load_data, loadCore, h1, h2]⟩
      · right; simp [load_data, loadCore, h1, h2]
    · right; simp [load_data, loadCore, h1]

/-! ### C9: column-name matching is case-insensitive and whitespace-tolerant -/

/-- C9 (confirmed).  `load_data` normalizes every column name by stripping
and lowercasing before any column is accessed, so two CSVs with the same
rows whose headers agree after normalization — in particular, headers
differing only by letter case or leading/trailing whitespace — load to
identical results. -/
theorem c9_header_normalization (pn : String → Option ℚ) (pdp : String → Option Int)
    (lev : String → Option Lit) (h1 h2 : List String) (rows : List (List Cell))
    (h : h1.map normCol = h2.map normCol) :
    load_data pn pdp lev (some ⟨h1, rows⟩) = load_data pn pdp lev (some ⟨h2, rows⟩) := by
  simp only [load_data]
  rw [h]

/-- Mixed-case, whitespace-padded headers. -/
def hdrsMixed : List String :=
  ["Timestamp", " OPEN", "High ", "Low", "Close", " Support ", "Resistance", "Direction"]

/-- The same headers, already normalized. -/
def hdrsPlain : List String :=
  ["timestamp", "open", "high", "low", "close", "support", "resistance", "direction"]

/-- A shared data row for the C9 witness. -/
def rowsC9 : List (List Cell) :=
  [[some "2024-01-02", some "10", some "12", some "9", some "11", none, none, some "long"]]

/-- Witness for C9: concrete case/whitespace header variants load equal. -/
theorem c9_header_normalization_witness :
    load_data qParse dParse levDemo (some ⟨hdrsMixed, rowsC9⟩) =
      load_data qParse dParse levDemo (some ⟨hdrsPlain, rowsC9⟩) :=
  c9_header_normalization qParse dParse levDemo hdrsMixed hdrsPlain rowsC9 (by decide)

/-! ### C5: annotations come only from the last 100 rows -/

/-- C5 (confirmed).  Every band shape added by `candlestick_chart` is
generated by a row of `df.tail(100)` (`lastN 100 df`), and every point of
every directional marker trace is the date of a row of that window with
the trace's direction; no earlier row contributes an annotation. -/
theorem c5_annotations_window (df : List Row) :
    (∀ s ∈ (candlestick_chart df).shapes, ∃ r ∈ lastN 100 df, s ∈ rowShapes r) ∧
    (∀ t ∈ (candlestick_chart df).markers, ∀ x ∈ t.xs,
      ∃ r ∈ lastN 100 df, x = r.date ∧ r.direction = t.name) := by
  constructor
  · intro s hs
    exact List.mem_flatMap.mp hs
  · intro t ht x hx
    obtain ⟨p, _, hmt⟩ := List.mem_filterMap.mp ht
    simp only [markerTrace] at hmt
    split at hmt
    · exact absurd hmt (by simp)
    · obtain rfl := Option.some_injective _ hmt
      obtain ⟨r, hr, hrx⟩ := List.mem_map.mp hx
      have hrf := List.mem_filter.mp hr
      exact ⟨r, hrf.1, hrx.symm, of_decide_eq_true hrf.2⟩

/-- A concrete row used to exercise the C5 window property. -/
def rowC5 : Row :=
  ⟨PDate.dt 1, some 1, some 2, some 1, some 2, Lit.list [Lit.int 10], Lit.list [], "LONG"⟩

/-- A one-row table for the C5 witness. -/
def dfC5 : List Row := [rowC5]

/-- Witness for C5: the single shape and the single marker point of a
concrete chart are traced back to rows of the 100-row window. -/
theorem c5_annotations_window_witness :
    (∃ s ∈ (candlestick_chart dfC5).shapes, ∃ r ∈ lastN 100 dfC5, s ∈ rowShapes r) ∧
    (∃ t ∈ (candlestick_chart dfC5).markers, ∃ x ∈ t.xs,
      ∃ r ∈ lastN 100 dfC5, x = r.date ∧ r.direction = t.name) := by
  constructor
  · have hs : (⟨PDate.dt 1, Lit.list [Lit.int 10], true⟩ : Shape) ∈
        (candlestick_chart dfC5).shapes :=
      List.mem_singleton.mpr rfl
    exact ⟨_, hs, (c5_annotations_window dfC5).1 _ hs⟩
  · have ht : (⟨"LONG", "triangle-up", "green", [PDate.dt 1],
        [markerY "LONG" rowC5]⟩ : MarkerTrace) ∈ (candlestick_chart dfC5).markers :=
      List.mem_singleton.mpr rfl
    have hx : PDate.dt 1 ∈
        (⟨"LONG", "triangle-up", "green", [PDate.dt 1],
          [markerY "LONG" rowC5]⟩ : MarkerTrace).xs :=
      List.mem_singleton.mpr rfl
    exact ⟨_, ht, _, hx, (c5_annotations_window dfC5).2 _ ht _ hx⟩

/-! ### C6: the candlestick trace carries the full table -/

/-- C6 (confirmed).  The candlestick price trace is built from the full
columns of the input table — its series are exactly the `date`, `open`,
`high`, `low`, `close` columns of all rows, with one point per row of
`df`, not only the trimmed last-100 window — while the title nevertheless
reads 'TSLA Chart (Last 100 Rows)'. -/
theorem c6_candle_full_columns (df : List Row) :
    (candlestick_chart df).candle.x = df.map (·.date) ∧
    (candlestick_chart df).candle.open_ = df.map (·.open_) ∧
    (candlestick_chart df).candle.high = df.map (·.high) ∧
    (candlestick_chart df).candle.low = df.map (·.low) ∧
    (candlestick_chart df).candle.close = df.map (·.close) ∧
    (candlestick_chart df).candle.x.length = df.length ∧
    (candlestick_chart df).title = "TSLA Chart (Last 100 Rows)" := by
  refine ⟨rfl, rfl, rfl, rfl, rfl, ?_, rfl⟩
  simp [candlestick_chart]

/-! ### `load_data` branch lemmas -/

/-- When the timestamp column exists and nothing raises, `load_data`
returns no error and the processed table. -/
theorem load_data_ok (pn : String → Option ℚ) (pdp : String → Option Int)
    (lev : String → Option Lit) (csv : Csv)
    (h1 : "timestamp" ∈ csv.headers.map normCol)
    (h2 : loadOk pdp (csv.headers.map normCol) csv.rows = true) :
    load_data pn pdp lev (some csv) =
      (none, processedTable pn pdp lev (csv.headers.map normCol) csv.rows) := by
  simp [load_data, loadCore, h1, h2]

/-- Every row of a table returned by `load_data` is the `processRow` image
of some input row, and passed the `dropna` filter. -/
theorem load_data_mem_elim {pn : String → Option ℚ} {pdp : String → Option Int}
    {lev : String → Option Lit} {csv : Csv} {r : Row}
    (h : r ∈ (load_data pn pdp lev (some csv)).2) :
    ∃ raw ∈ csv.rows,
      r = processRow pn pdp lev (csv.headers.map normCol) raw ∧ ohlcAll r = true := by
  by_cases h1 : "timestamp" ∈ csv.headers.map normCol
  · by_cases h2 : loadOk pdp (csv.headers.map normCol) csv.rows = true
    · rw [load_data_ok pn pdp lev csv h1 h2] at h
      exact processedTable_mem_elim h
    · simp [load_data, loadCore, h1, h2] at h
  · simp [load_data, loadCore, h1] at h

/-! ### C1: direction values and the {LONG, SHORT, NONE} enumeration -/

/-- The raw row of the C1 counterexample: its direction cell is `"buy"`. -/
def rawC1X : List Cell :=
  [some "2024-01-02", some "10", some "12", some "9", some "11", none, none, some "buy"]

/-- The CSV of the C1 counterexample. -/
def csvC1X : Csv :=
  ⟨["timestamp", "open", "high", "low", "close", "support", "resistance", "direction"],
   [rawC1X]⟩

/-- C1 counterexample.  `load_data` returns a non-empty table containing a
direction value (`"BUY"`, the uppercase of the input cell `"buy"`) that is
none of `"LONG"`, `"SHORT"`, `"NONE"`: the code only uppercases, it does
not map arbitrary strings into the fixed enumeration. -/
theorem c1_direction_enum_cex :
    (load_data qParse dParse levDemo (some csvC1X)).2 ≠ [] ∧
    ∃ r ∈ (load_data qParse dParse levDemo (some csvC1X)).2,
      r.direction ≠ "LONG" ∧ r.direction ≠ "SHORT" ∧ r.direction ≠ "NONE" := by
  have hmap : (load_data qParse dParse levDemo (some csvC1X)).2.map (·.direction)
      = ["BUY"] := by decide
  constructor
  · intro h
    rw [h] at hmap
    simp at hmap
  · have hb : "BUY" ∈ (load_data qParse dParse levDemo (some csvC1X)).2.map (·.direction) := by
      rw [hmap]; exact List.mem_singleton.mpr rfl
    obtain ⟨r, hr, hd⟩ := List.mem_map.mp hb
    refine ⟨r, hr, ?_, ?_, ?_⟩ <;> rw [show r.direction = "BUY" from hd] <;> decide

/-- C1 as amended.  Every direction value of a table returned by
`load_data` is exactly the uppercase of the source row's direction cell
(with a missing cell filled as `'None'` first); in particular
case-variants of long/short/none and missing cells land in
{LONG, SHORT, NONE}, but any other direction string yields its uppercase
form, outside the enumeration. -/
theorem c1_direction_uppercase (pn : String → Option ℚ) (pdp : String → Option Int)
    (lev : String → Option Lit) (csv : Csv) :
    ∀ r ∈ (load_data pn pdp lev (some csv)).2,
      ∃ raw ∈ csv.rows,
        r.direction = directionOf (getCell (csv.headers.map normCol) raw "direction") := by
  intro r hr
  obtain ⟨raw, hraw, rfl, _⟩ := load_data_mem_elim hr
  exact ⟨raw, hraw, rfl⟩

/-- The raw row of the C1 witness: direction cell `"long"`. -/
def rawC1W : List Cell :=
  [some "2024-01-02", some "10", some "12", some "9", some "11", none, none, some "long"]

/-- The CSV of the C1 witness. -/
def csvC1W : Csv :=
  ⟨["timestamp", "open", "high", "low", "close", "support", "resistance", "direction"],
   [rawC1W]⟩

/-- Witness for the amended C1 at a concrete CSV. -/
theorem c1_direction_uppercase_witness :
    ∃ raw ∈ csvC1W.rows,
      (processRow qParse dParse levDemo (csvC1W.headers.map normCol) rawC1W).direction
        = directionOf (getCell (csvC1W.headers.map normCol) raw "direction") :=
  c1_direction_uppercase qParse dParse levDemo csvC1W _ (List.mem_singleton.mpr rfl)

/-! ### C2: rows kept and dropped by the OHLC filter -/

/-- The raw row of the C2 counterexample: all four price fields numeric,
but an unparseable timestamp. -/
def rawC2X : List Cell :=
  [some "not a date", some "10", some "12", some "9", some "11", none, none, some "long"]

/-- The CSV of the C2 counterexample. -/
def csvC2X : Csv :=
  ⟨["timestamp", "open", "high", "low", "close", "support", "resistance", "direction"],
   [rawC2X]⟩

/-- C2 counterexample.  A row with all four price fields numeric is *not*
retained: its unparseable timestamp makes `pd.to_datetime` raise, the
`except` branch returns the empty dataframe, and the numeric row is gone.
Retention of all-numeric rows therefore does not hold for every input CSV. -/
theorem c2_retention_cex :
    (load_data qParse dParse levDemo (some csvC2X)).2 = [] ∧
    rawC2X ∈ csvC2X.rows ∧
    ohlcAll (processRow qParse dParse levDemo (csvC2X.headers.map normCol) rawC2X) = true := by
  refine ⟨List.eq_nil_of_length_eq_zero (by decide), List.mem_singleton.mpr rfl, by decide⟩

/-- C2 as amended.  For every input CSV, a row whose processed price
fields are not all numeric never appears in the returned table; and
whenever `load_data` reaches its `return` (the timestamp column exists,
every accessed column exists, and every timestamp parses), every row whose
four price fields are all numeric is retained. -/
theorem c2_ohlc_filter (pn : String → Option ℚ) (pdp : String → Option Int)
    (lev : String → Option Lit) (csv : Csv) :
    (∀ raw ∈ csv.rows,
      ohlcAll (processRow pn pdp lev (csv.headers.map normCol) raw) = false →
      processRow pn pdp lev (csv.headers.map normCol) raw ∉
        (load_data pn pdp lev (some csv)).2) ∧
    ("timestamp" ∈ csv.headers.map normCol →
      loadOk pdp (csv.headers.map normCol) csv.rows = true →
      ∀ raw ∈ csv.rows,
        ohlcAll (processRow pn pdp lev (csv.headers.map normCol) raw) = true →
        processRow pn pdp lev (csv.headers.map normCol) raw ∈
          (load_data pn pdp lev (some csv)).2) := by
  constructor
  · intro raw _ hfalse hmem
    obtain ⟨_, _, _, htrue⟩ := load_data_mem_elim hmem
    rw [hfalse] at htrue
    exact Bool.false_ne_true htrue
  · intro h1 h2 raw hraw htrue
    rw [load_data_ok pn pdp lev csv h1 h2]
    exact processedTable_mem_intro hraw htrue

/-- The dropped raw row of the C2 witness: `open` is not numeric. -/
def rawC2Bad : List Cell :=
  [some "2024-01-02", some "oops", some "12", some "9", some "11", none, none, some "long"]

/-- The retained raw row of the C2 witness: all four prices numeric. -/
def rawC2Good : List Cell :=
  [some "2024-01-03", some "10", some "12", some "9", some "11", none, none, some "short"]

/-- The CSV of the C2 witness. -/
def csvC2W : Csv :=
  ⟨["timestamp", "open", "high", "low", "close", "support", "resistance", "direction"],
   [rawC2Bad, rawC2Good]⟩

/-- Witness for the amended C2: the non-numeric row is dropped, the
numeric row is retained. -/
theorem c2_ohlc_filter_witness :
    processRow qParse dParse levDemo (csvC2W.headers.map normCol) rawC2Bad ∉
      (load_data qParse dParse levDemo (some csvC2W)).2 ∧
    processRow qParse dParse levDemo (csvC2W.headers.map normCol) rawC2Good ∈
      (load_data qParse dParse levDemo (some csvC2W)).2 :=
  ⟨(c2_ohlc_filter qParse dParse levDemo csvC2W).1 rawC2Bad
      (List.mem_cons_self _ _) (by decide),
   (c2_ohlc_filter qParse dParse levDemo csvC2W).2 (by decide) (by decide) rawC2Good
      (List.mem_cons_of_mem _ (List.mem_singleton.mpr rfl)) (by decide)⟩

/-! ### C10: missing direction cells become "NONE" -/

/-- C10 (confirmed).  A row of the returned table whose source row had a
missing direction cell carries direction exactly `"NONE"`: the cell is
filled with `'None'` before `str.upper`, so a missing label is
indistinguishable from an explicit (any-case) `'none'` label. -/
theorem c10_missing_direction_none (pn : String → Option ℚ) (pdp : String → Option Int)
    (lev : String → Option Lit) (csv : Csv) (raw : List Cell) (r : Row)
    (_hraw : raw ∈ csv.rows)
    (hcell : getCell (csv.headers.map normCol) raw "direction" = none)
    (hr : r = processRow pn pdp lev (csv.headers.map normCol) raw)
    (hmem : r ∈ (load_data pn pdp lev (some csv)).2) :
    r.direction = "NONE" := by
  subst hr
  show directionOf (getCell (csv.headers.map normCol) raw "direction") = "NONE"
  rw [hcell]
  rfl

/-- The raw row of the C10 witness: the direction cell is missing. -/
def rawC10 : List Cell :=
  [some "2024-01-02", some "10", some "12", some "9", some "11", none, none, none]

/-- The CSV of the C10 witness. -/
def csvC10 : Csv :=
  ⟨["timestamp", "open", "high", "low", "close", "support", "resistance", "direction"],
   [rawC10]⟩

/-- Witness for C10 at a concrete CSV whose only row has a missing
direction cell and survives into the returned table. -/
theorem c10_missing_direction_none_witness :
    (processRow qParse dParse levDemo (csvC10.headers.map normCol) rawC10).direction
      = "NONE" :=
  c10_missing_direction_none qParse dParse levDemo csvC10 rawC10 _
    (List.mem_singleton.mpr rfl) (by decide) rfl (List.mem_singleton.mpr rfl)
